import Mathlib

set_option maxRecDepth 8192

/-!
Shallow embedding of the krishiverse dosing pipeline
(`app/services/llm.py`): device registry, prompt builder, advisory
client (LLM call with think-block stripping and JSON parsing),
response validator, dosing executor, and the end-to-end orchestrator
`process_dosing_request`.

Python dictionaries/lists/JSON values are modelled by the inductive
`JVal`; Python exceptions are modelled by `Except String` carrying the
exception message. The MQTT publish side effect is modelled by the
list of (topic, message) pairs a run emits.
-/

/-- Model of a Python/JSON dynamic value, as produced by `json.loads`
and consumed by `validate_llm_response` / `execute_dosing_plan`.
Floats are modelled as rationals. Objects are ordered key-value lists
(Python dicts preserve insertion order). -/
inductive JVal where
  | jnull : JVal
  | jbool : Bool → JVal
  | jint : Int → JVal
  | jfloat : Rat → JVal
  | jstr : String → JVal
  | jarr : List JVal → JVal
  | jobj : List (String × JVal) → JVal

/-- First-match association lookup: Python `d[k]` / `k in d` on the
key list of a dict. -/
def jlookup (kvs : List (String × JVal)) (k : String) : Option JVal :=
  match kvs with
  | [] => none
  | (k', v) :: rest => if k' == k then some v else jlookup rest k

/-- `v == jstr k` under Python `==` semantics (a string equals only an
equal string). Used for `k in someList`. -/
def jvalEqStr (v : JVal) (k : String) : Bool :=
  match v with
  | .jstr s => s == k
  | _ => false

/-- Python `key in container`: membership for dicts and lists,
substring test for strings, `TypeError` otherwise. -/
def pyContains (container : JVal) (k : String) : Except String Bool :=
  match container with
  | .jobj kvs => .ok ((jlookup kvs k).isSome)
  | .jarr xs => .ok (xs.any (fun v => jvalEqStr v k))
  | .jstr s => .ok (((s.splitOn k).length) > 1)
  | _ => .error "TypeError: argument is not iterable"

/-- Python `container[key]` subscript for a string key: dict lookup
(`KeyError` when absent), `TypeError` on non-dicts. -/
def pySubscript (v : JVal) (k : String) : Except String JVal :=
  match v with
  | .jobj kvs =>
    match jlookup kvs k with
    | some x => .ok x
    | none => .error ("KeyError: " ++ k)
  | _ => .error "TypeError: value is not subscriptable"

/-- Python `d.get(key, default)`: dict lookup with default,
`AttributeError` on non-dicts. -/
def pyGet (v : JVal) (k : String) (dflt : JVal) : Except String JVal :=
  match v with
  | .jobj kvs => .ok ((jlookup kvs k).getD dflt)
  | _ => .error "AttributeError: object has no attribute get"

/-- Python `isinstance(v, (int, float))`. Note that `bool` is a
subclass of `int` in Python, so booleans count as numeric. -/
def isNumericJ (v : JVal) : Bool :=
  match v with
  | .jint _ => true
  | .jfloat _ => true
  | .jbool _ => true
  | _ => false

/-- Numeric value of a `JVal` for comparisons (`True` is 1, `False`
is 0, as in Python); 0 for non-numerics (never used on those). -/
def numValJ (v : JVal) : Rat :=
  match v with
  | .jint n => (n : Rat)
  | .jfloat q => q
  | .jbool b => if b then 1 else 0
  | _ => 0

/-- Python whitespace for `str.strip()`. -/
def isPyWs (c : Char) : Bool :=
  c == ' ' || c == '\t' || c == '\n' || c == '\r' || c == Char.ofNat 11 || c == Char.ofNat 12

/-- Python `s.strip()`: drop leading and trailing whitespace. -/
def pyStrip (s : String) : String :=
  String.mk (((s.data.dropWhile isPyWs).reverse.dropWhile isPyWs).reverse)

/-- The `required_keys` set of `validate_llm_response`, in the
iteration order used by the generator expression. -/
def requiredKeys : List String := ["pump_number", "chemical_name", "dose_ml", "reasoning"]

/-- Short-circuiting `all(key in action for key in keys)`. -/
def pyAllContains (action : JVal) : List String → Except String Bool
  | [] => .ok true
  | k :: ks => do
    let b ← pyContains action k
    if b then pyAllContains action ks else pure false

/-- The per-action body of the `for action in response["actions"]`
loop of `validate_llm_response`: required-key check, then the
`dose_ml` type/range check. -/
def validateAction (action : JVal) : Except String Unit := do
  let allKeys ← pyAllContains action requiredKeys
  if !allKeys then
    .error "Action missing required keys: pump_number, chemical_name, dose_ml, reasoning"
  else do
    let dose ← pySubscript action "dose_ml"
    if !(isNumericJ dose) then
      .error "dose_ml must be a positive number"
    else if numValJ dose < 0 then
      .error "dose_ml must be a positive number"
    else
      pure ()

/-- The validation loop over the actions list. -/
def validateActions : List JVal → Except String Unit
  | [] => .ok ()
  | a :: rest => do
    validateAction a
    validateActions rest

/-- `validate_llm_response(response)` from `app/services/llm.py`:
checks the response is a dict, contains an `actions` key, that
`actions` is a list, and runs the per-action checks. Raising
`ValueError(msg)` is modelled as `.error msg`. -/
def validate_llm_response (response : JVal) : Except String Unit :=
  match response with
  | .jobj kvs =>
    if (jlookup kvs "actions").isSome then
      match jlookup kvs "actions" with
      | some (.jarr actions) => validateActions actions
      | some _ => .error "'actions' must be a list"
      | none => .error "'actions' must be a list"
    else
      .error "Response must contain 'actions' key"
  | _ => .error "Response must be a dictionary"

example : validate_llm_response (.jobj [("actions", .jarr [])]) = .ok () := rfl
example : validate_llm_response (.jobj []) = .error "Response must contain 'actions' key" := rfl
example : validate_llm_response (.jobj [("actions", .jarr
  [.jobj [("pump_number", .jint 1), ("chemical_name", .jstr "A"),
          ("dose_ml", .jfloat (-1)), ("reasoning", .jstr "r")]])])
  = .error "dose_ml must be a positive number" := rfl
example : validate_llm_response (.jobj [("actions", .jarr
  [.jobj [("pump_number", .jint 5), ("chemical_name", .jstr "Wrong"),
          ("dose_ml", .jint 0), ("reasoning", .jstr "r")]])])
  = .ok () := rfl

/-- One pump slot's configuration (`pumps_config` entry values). -/
structure PumpConfig where
  chemical_name : String
  chemical_description : String

/-- `DosingDevice` from `app/services/llm.py`: device id plus the
ordered pump configuration dict (key → config). -/
structure DosingDevice where
  device_id : String
  pumps_config : List (String × PumpConfig)

/-- `self.mqtt_topic = f"krishiverse/devices/{device_id}/dosing"`. -/
def DosingDevice.mqtt_topic (d : DosingDevice) : String :=
  "krishiverse/devices/" ++ d.device_id ++ "/dosing"

/-- `DosingManager`: dict from device id to `DosingDevice`. -/
structure DosingManager where
  devices : List (String × DosingDevice)

/-- Lookup in the managers' device dict. -/
def lookupDevice : List (String × DosingDevice) → String → Option DosingDevice
  | [], _ => none
  | (k, d) :: rest, device_id => if k == device_id then some d else lookupDevice rest device_id

/-- `DosingManager.register_device`: dict assignment
`self.devices[device_id] = DosingDevice(...)`; consing in front gives
the same lookup semantics as overwriting the key. -/
def register_device (m : DosingManager) (device_id : String)
    (pumps_config : List (String × PumpConfig)) : DosingManager :=
  ⟨(device_id, ⟨device_id, pumps_config⟩) :: m.devices⟩

/-- `DosingManager.get_device`: raises `ValueError` when the id is
not registered. -/
def get_device (m : DosingManager) (device_id : String) : Except String DosingDevice :=
  match lookupDevice m.devices device_id with
  | some d => .ok d
  | none => .error ("Dosing device " ++ device_id ++ " not registered")

/-- Python `str(v)` as used by f-string interpolation. Container
renderings are abbreviated (no claim depends on them); scalars follow
Python (`None`/`True`/`False`, decimal integers, strings verbatim). -/
def pyStrOf (v : JVal) : String :=
  match v with
  | .jnull => "None"
  | .jbool true => "True"
  | .jbool false => "False"
  | .jint n => toString n
  | .jfloat q => toString q
  | .jstr s => s
  | .jarr _ => "[...]"
  | .jobj _ => "..."

/-- Python `d[k]` on a raw dict (assoc list): `KeyError` if absent. -/
def dictIndex (kvs : List (String × JVal)) (k : String) : Except String JVal :=
  match jlookup kvs k with
  | some v => .ok v
  | none => .error ("KeyError: " ++ k)

/-- `build_dosing_prompt(device_id, sensor_data, plant_profile)`:
renders pump configuration, plant profile and sensor readings into
the fixed prompt template, then strips surrounding whitespace.
Missing `ph`/`tds`/`weather_locale` render as "Unknown" via `.get`;
missing `plant_name`/`current_age`/`seeding_age` raise `KeyError`. -/
def build_dosing_prompt (mgr : DosingManager) (device_id : String)
    (sensor_data plant_profile : List (String × JVal)) : Except String String := do
  let device ← get_device mgr device_id
  let pump_info := String.intercalate "\n"
    ((device.pumps_config.enum).map (fun p =>
      "Pump " ++ toString (p.1 + 1) ++ ": " ++ p.2.2.chemical_name ++ " - " ++
      p.2.2.chemical_description))
  let plant_name ← dictIndex plant_profile "plant_name"
  let current_age ← dictIndex plant_profile "current_age"
  let seeding_age ← dictIndex plant_profile "seeding_age"
  let plant_info :=
    "Plant: " ++ pyStrOf plant_name ++ "\n" ++
    "Growth Stage: " ++ pyStrOf current_age ++ " days from seeding " ++
    "(seeded at " ++ pyStrOf seeding_age ++ " days)\n" ++
    "Location: " ++ pyStrOf ((jlookup plant_profile "weather_locale").getD (.jstr "Unknown"))
  let ph := pyStrOf ((jlookup sensor_data "ph").getD (.jstr "Unknown"))
  let tds := pyStrOf ((jlookup sensor_data "tds").getD (.jstr "Unknown"))
  let prompt :=
    "\nYou are an expert hydroponic system manager. Based on the following information, determine optimal nutrient dosing amounts.\n\nCurrent Sensor Readings:\n- pH: " ++
    ph ++ "\n- TDS (PPM): " ++ tds ++ "\n\nPlant Information:\n" ++ plant_info ++
    "\n\nAvailable Dosing Pumps:\n" ++ pump_info ++
    "\n\nProvide dosing recommendations in the following JSON format:\n\x7b\n    \"actions\": [\n        \x7b\n            \"pump_number\": 1,\n            \"chemical_name\": \"Nutrient A\",\n            \"dose_ml\": 50.0,\n            \"reasoning\": \"Brief explanation\"\n        \x7d,\n        ...\n    ],\n    \"next_check_hours\": 24\n\x7d\n\nConsider:\n1. Current pH and TDS levels\n2. Plant growth stage\n3. Chemical interactions\n4. Maximum safe dosing limits\n"
  pure (pyStrip prompt)

/-! ### Model of `json.loads` (recursive-descent parser, fuel-bounded) -/

def cQuote : Char := Char.ofNat 34
def cBackslash : Char := Char.ofNat 92
def cLBrace : Char := Char.ofNat 123
def cRBrace : Char := Char.ofNat 125

/-- Skip JSON whitespace. -/
def skipWs : List Char → List Char
  | [] => []
  | c :: cs => if c == ' ' || c == '\t' || c == '\n' || c == '\r' then skipWs cs else c :: cs

def isPrefixL : List Char → List Char → Bool
  | [], _ => true
  | _ :: _, [] => false
  | a :: as, b :: bs => a == b && isPrefixL as bs

/-- Decode a JSON string escape character (subset; `\\uXXXX` not
modelled, unused by this development). -/
def decodeEsc (e : Char) : Char :=
  if e == 'n' then '\n'
  else if e == 't' then '\t'
  else if e == 'r' then '\r'
  else if e == 'b' then Char.ofNat 8
  else if e == 'f' then Char.ofNat 12
  else e

/-- Parse the body of a JSON string after the opening quote. -/
def parseStrChars : List Char → Except String (List Char × List Char)
  | [] => .error "Unterminated string"
  | c :: cs =>
    if c == cQuote then .ok ([], cs)
    else if c == cBackslash then
      match cs with
      | [] => .error "Unterminated string"
      | e :: cs2 =>
        match parseStrChars cs2 with
        | .ok (chars, rem) => .ok (decodeEsc e :: chars, rem)
        | .error m => .error m
    else
      match parseStrChars cs with
      | .ok (chars, rem) => .ok (c :: chars, rem)
      | .error m => .error m

def digitsVal (ds : List Char) : Nat :=
  ds.foldl (fun a c => a * 10 + (c.toNat - 48)) 0

/-- Parse a JSON number after an optional leading minus sign
(exponents not modelled, unused by this development). -/
def parseNumTail (neg : Bool) (s : List Char) : Except String (JVal × List Char) :=
  let intDigits := s.takeWhile Char.isDigit
  let rest := s.dropWhile Char.isDigit
  if intDigits.isEmpty then .error "Expecting value"
  else
    match rest with
    | c :: cs =>
      if c == '.' then
        let fracDigits := cs.takeWhile Char.isDigit
        let rest2 := cs.dropWhile Char.isDigit
        if fracDigits.isEmpty then .error "Expecting value"
        else
          let q : Rat := (digitsVal intDigits : Rat) +
            (digitsVal fracDigits : Rat) / ((10 : Rat) ^ fracDigits.length)
          .ok (.jfloat (if neg then -q else q), rest2)
      else .ok (.jint (if neg then -(digitsVal intDigits : Int) else (digitsVal intDigits : Int)), rest)
    | [] => .ok (.jint (if neg then -(digitsVal intDigits : Int) else (digitsVal intDigits : Int)), [])

def parseNum (s : List Char) : Except String (JVal × List Char) :=
  match s with
  | [] => .error "Expecting value"
  | c :: cs => if c == '-' then parseNumTail true cs else parseNumTail false (c :: cs)

/-- Python dict assignment semantics for building parsed objects:
assigning an existing key overwrites in place, a new key appends. -/
def dictAssign : List (String × JVal) → String → JVal → List (String × JVal)
  | [], k, v => [(k, v)]
  | (k', v') :: rest, k, v =>
    if k' == k then (k, v) :: rest else (k', v') :: dictAssign rest k v

mutual

/-- Parse one JSON value; the fuel bounds the nesting/element count. -/
def parseJ : Nat → List Char → Except String (JVal × List Char)
  | 0, _ => .error "Expecting value"
  | Nat.succ fuel, s =>
    match skipWs s with
    | [] => .error "Expecting value"
    | c :: cs =>
      if c == cQuote then
        match parseStrChars cs with
        | .ok (chars, rem) => .ok (.jstr (String.mk chars), rem)
        | .error m => .error m
      else if c == cLBrace then
        match skipWs cs with
        | c2 :: cs2 =>
          if c2 == cRBrace then .ok (.jobj [], cs2)
          else
            match parseObjItems fuel (c2 :: cs2) with
            | .ok (kvs, rem) =>
              .ok (.jobj (kvs.foldl (fun acc p => dictAssign acc p.1 p.2) []), rem)
            | .error m => .error m
        | [] => .error "Expecting property name"
      else if c == '[' then
        match skipWs cs with
        | c2 :: cs2 =>
          if c2 == ']' then .ok (.jarr [], cs2)
          else
            match parseArrItems fuel (c2 :: cs2) with
            | .ok (vs, rem) => .ok (.jarr vs, rem)
            | .error m => .error m
        | [] => .error "Expecting value"
      else if isPrefixL "true".data (c :: cs) then .ok (.jbool true, (c :: cs).drop 4)
      else if isPrefixL "false".data (c :: cs) then .ok (.jbool false, (c :: cs).drop 5)
      else if isPrefixL "null".data (c :: cs) then .ok (.jnull, (c :: cs).drop 4)
      else if c == '-' || c.isDigit then parseNum (c :: cs)
      else .error "Expecting value"

/-- Parse the comma-separated elements of a non-empty array. -/
def parseArrItems : Nat → List Char → Except String (List JVal × List Char)
  | 0, _ => .error "Expecting value"
  | Nat.succ fuel, s =>
    match parseJ fuel s with
    | .error m => .error m
    | .ok (v, rem) =>
      match skipWs rem with
      | c :: cs =>
        if c == ',' then
          match parseArrItems fuel cs with
          | .ok (vs, rem2) => .ok (v :: vs, rem2)
          | .error m => .error m
        else if c == ']' then .ok ([v], cs)
        else .error "Expecting comma delimiter"
      | [] => .error "Expecting comma delimiter"

/-- Parse the members of a non-empty object. -/
def parseObjItems : Nat → List Char → Except String (List (String × JVal) × List Char)
  | 0, _ => .error "Expecting property name"
  | Nat.succ fuel, s =>
    match skipWs s with
    | c :: cs =>
      if c == cQuote then
        match parseStrChars cs with
        | .error m => .error m
        | .ok (keyChars, rem) =>
          match skipWs rem with
          | c2 :: cs2 =>
            if c2 == ':' then
              match parseJ fuel cs2 with
              | .error m => .error m
              | .ok (v, rem2) =>
                match skipWs rem2 with
                | c3 :: cs3 =>
                  if c3 == ',' then
                    match parseObjItems fuel cs3 with
                    | .ok (kvs, rem3) => .ok ((String.mk keyChars, v) :: kvs, rem3)
                    | .error m => .error m
                  else if c3 == cRBrace then .ok ([(String.mk keyChars, v)], cs3)
                  else .error "Expecting comma delimiter"
                | [] => .error "Expecting comma delimiter"
            else .error "Expecting colon delimiter"
          | [] => .error "Expecting colon delimiter"
      else .error "Expecting property name"
    | [] => .error "Expecting property name"

end

/-- Model of `json.loads`: parse one value and require only trailing
whitespace after it. -/
def json_loads (s : String) : Except String JVal :=
  match parseJ (2 * s.data.length + 2) s.data with
  | .error m => .error m
  | .ok (v, rem) => if (skipWs rem).isEmpty then .ok v else .error "Extra data"

example : json_loads "" = .error "Expecting value" := rfl
example : json_loads "\x7b\"actions\": []\x7d" = .ok (.jobj [("actions", .jarr [])]) := rfl
example : json_loads " [1, \"x\", true, null] "
  = .ok (.jarr [.jint 1, .jstr "x", .jbool true, .jnull]) := rfl
example : (json_loads "-2.5").isOk = true := rfl
example : json_loads "not json" = .error "Expecting value" := rfl

/-! ### Advisory client: `call_llm_async` -/

def thinkOpen : List Char := "<think>".data
def thinkClose : List Char := "</think>".data

/-- Index of the first occurrence of `pat` in a character list. -/
def findIdx (pat : List Char) : List Char → Option Nat
  | [] => if pat.isEmpty then some 0 else none
  | c :: cs => if isPrefixL pat (c :: cs) then some 0 else (findIdx pat cs).map (· + 1)

/-- Left-to-right removal of non-greedy matches of the pattern
`<think>.*?</think>` (DOTALL), as `re.sub` performs it: each match
runs from the leftmost remaining `<think>` to the nearest following
`</think>`; scanning resumes after the removed block. -/
def removeThinkAux (fuel : Nat) (s : List Char) : List Char :=
  match fuel with
  | 0 => s
  | fuel + 1 =>
    match findIdx thinkOpen s with
    | none => s
    | some i =>
      let after := s.drop (i + thinkOpen.length)
      match findIdx thinkClose after with
      | none => s
      | some j => s.take i ++ removeThinkAux fuel (after.drop (j + thinkClose.length))

/-- `re.sub(r'<think>.*?</think>', '', content, flags=re.DOTALL)`. -/
def strip_think (s : String) : String :=
  String.mk (removeThinkAux (s.data.length + 1) s.data)

example : strip_think "a<think>ignore</think>b" = "ab" := rfl
example : strip_think "<think>x</think>" = "" := rfl

/-- Behaviour of the underlying `ollama.chat` call for one run:
either the call raises (advisor unreachable, with the raised
exception's message) or it returns a message whose `content` field is
the given raw text. -/
inductive LLMOutcome where
  | unreachable : String → LLMOutcome
  | reply : String → LLMOutcome

/-- `call_llm_async(prompt)` from `app/services/llm.py`, as a function
of the advisor's behaviour: trims the raw content, raises
`ValueError("Empty response from LLM")` when the trimmed content is
empty, then strips think blocks, re-trims, parses the result as JSON
(`json.JSONDecodeError` is re-raised as
`ValueError("Invalid JSON response from LLM: ...")`), validates it
with `validate_llm_response`, and returns the parsed response. All
other exceptions propagate unchanged. -/
def call_llm_async (outcome : LLMOutcome) : Except String JVal :=
  match outcome with
  | .unreachable msg => .error msg
  | .reply raw =>
    let content := pyStrip raw
    if content == "" then .error "Empty response from LLM"
    else
      match json_loads (pyStrip (strip_think content)) with
      | .error m => .error ("Invalid JSON response from LLM: " ++ m)
      | .ok parsed =>
        match validate_llm_response parsed with
        | .error m => .error m
        | .ok () => .ok parsed

/-! ### Dosing executor and orchestrator -/

/-- `execute_dosing_plan(device_id, dosing_plan)`: looks up the
device, builds the dispatch message
`{timestamp, device_id, actions, next_check_hours}` (with
`dosing_plan.get("next_check_hours", 24)`), and publishes it to the
device's MQTT topic. `now` models `datetime.utcnow().isoformat()`;
the returned list models the publish calls made (topic, payload). -/
def execute_dosing_plan (mgr : DosingManager) (now : String) (device_id : String)
    (dosing_plan : JVal) : Except String (JVal × List (String × JVal)) := do
  let device ← get_device mgr device_id
  let actions ← pySubscript dosing_plan "actions"
  let nch ← pyGet dosing_plan "next_check_hours" (.jint 24)
  let message : JVal := .jobj [("timestamp", .jstr now), ("device_id", .jstr device_id),
    ("actions", actions), ("next_check_hours", nch)]
  pure (message, [(device.mqtt_topic, message)])

/-- `process_dosing_request(device_id, sensor_data, plant_profile)`:
build the prompt, call the advisor (parse + validate), then execute
the plan. Returns the run's result together with the list of publish
calls the run performed; a raised exception at any stage aborts the
run with no further stages executed. -/
def process_dosing_request (mgr : DosingManager) (now : String) (outcome : LLMOutcome)
    (device_id : String) (sensor_data plant_profile : List (String × JVal)) :
    Except String JVal × List (String × JVal) :=
  match build_dosing_prompt mgr device_id sensor_data plant_profile with
  | .error e => (.error e, [])
  | .ok _prompt =>
    match call_llm_async outcome with
    | .error e => (.error e, [])
    | .ok dosing_plan =>
      match execute_dosing_plan mgr now device_id dosing_plan with
      | .error e => (.error e, [])
      | .ok (msg, pubs) => (.ok msg, pubs)

/-! ### Shared concrete fixtures -/

/-- A two-slot pump configuration (Nutrient A / Nutrient B). -/
def pumpsAB : List (String × PumpConfig) :=
  [("pump1", ⟨"Nutrient A", "Primary nutrients NPK"⟩),
   ("pump2", ⟨"Nutrient B", "Secondary nutrients"⟩)]

/-- A registry holding one device `dev1` configured with `pumpsAB`. -/
def mgrAB : DosingManager := register_device ⟨[]⟩ "dev1" pumpsAB

/-- A well-formed plant profile. -/
def plantFix : List (String × JVal) :=
  [("plant_name", .jstr "Lettuce"), ("current_age", .jint 20), ("seeding_age", .jint 5)]

/-- A sensor snapshot with both readings present. -/
def sensorFix : List (String × JVal) := [("ph", .jint 6), ("tds", .jint 600)]

/-! ### Helper lemmas shared by several claims -/

/-- The shape test `validate_llm_response` actually applies to one
action: it is an object, the four required keys are present, and the
`dose_ml` value is numeric and non-negative. No comparison against
the device's pump configuration occurs anywhere in it. -/
def actionWellShapedB (a : JVal) : Bool :=
  match a with
  | .jobj kvs =>
    (jlookup kvs "pump_number").isSome && (jlookup kvs "chemical_name").isSome &&
    (jlookup kvs "reasoning").isSome &&
    (match jlookup kvs "dose_ml" with
     | some dose => isNumericJ dose && decide (0 ≤ numValJ dose)
     | none => false)
  | _ => false

theorem validateAction_ok_of_shape (a : JVal) (h : actionWellShapedB a = true) :
    validateAction a = .ok () := by
  cases a with
  | jobj kvs =>
    cases hdose : jlookup kvs "dose_ml" with
    | none => simp [actionWellShapedB, hdose] at h
    | some dose =>
      simp only [actionWellShapedB, hdose, Bool.and_eq_true, decide_eq_true_eq] at h
      obtain ⟨⟨⟨hp, hc⟩, hr⟩, hnum, hge⟩ := h
      simp [validateAction, pyAllContains, pyContains, requiredKeys, pySubscript,
        Bind.bind, Except.bind, pure, Except.pure, hp, hc, hr, hdose, hnum, not_lt.mpr hge]
  | jnull => simp [actionWellShapedB] at h
  | jbool b => simp [actionWellShapedB] at h
  | jint n => simp [actionWellShapedB] at h
  | jfloat q => simp [actionWellShapedB] at h
  | jstr s => simp [actionWellShapedB] at h
  | jarr xs => simp [actionWellShapedB] at h

theorem validateActions_ok_of_shape (l : List JVal) (h : l.all actionWellShapedB = true) :
    validateActions l = .ok () := by
  induction l with
  | nil => rfl
  | cons a rest ih =>
    simp only [List.all_cons, Bool.and_eq_true] at h
    simp [validateActions, Bind.bind, Except.bind,
      validateAction_ok_of_shape a h.1, ih h.2]

/-- A response whose `actions` entry is a list of shape-valid actions
passes `validate_llm_response`, whatever the rest of it holds. -/
theorem validate_ok_of_shape (kvs : List (String × JVal)) (acts : List JVal)
    (hact : jlookup kvs "actions" = some (.jarr acts))
    (hsh : acts.all actionWellShapedB = true) :
    validate_llm_response (.jobj kvs) = .ok () := by
  simp [validate_llm_response, hact, validateActions_ok_of_shape acts hsh]

/-- Evaluation of `execute_dosing_plan` on a dict plan whose device
is registered: one publish of the four-field dispatch message to the
device's topic. -/
theorem execute_dosing_plan_ok (mgr : DosingManager) (now deviceId : String)
    (dev : DosingDevice) (kvs : List (String × JVal)) (acts : JVal)
    (hdev : get_device mgr deviceId = .ok dev)
    (hact : jlookup kvs "actions" = some acts) :
    execute_dosing_plan mgr now deviceId (.jobj kvs)
      = .ok (.jobj [("timestamp", .jstr now), ("device_id", .jstr deviceId),
            ("actions", acts),
            ("next_check_hours", (jlookup kvs "next_check_hours").getD (.jint 24))],
          [(dev.mqtt_topic,
            .jobj [("timestamp", .jstr now), ("device_id", .jstr deviceId),
              ("actions", acts),
              ("next_check_hours", (jlookup kvs "next_check_hours").getD (.jint 24))])]) := by
  simp [execute_dosing_plan, Bind.bind, Except.bind, pure, Except.pure,
    hdev, pySubscript, hact, pyGet]

/-! ### C1 — domain cross-check -/

/-- An action referencing pump slot 5 with a chemical name configured
on no slot of `pumpsAB` (which has only slots 1 and 2). -/
def actC1 : JVal := .jobj [("pump_number", .jint 5), ("chemical_name", .jstr "Mystery"),
  ("dose_ml", .jint 3), ("reasoning", .jstr "r")]

/-- The parsed advisor response holding only `actC1`. -/
def respC1 : JVal := .jobj [("actions", .jarr [actC1])]

/-- Raw advisor reply text whose JSON parse is `respC1`. -/
def replyC1 : String :=
  "\x7b\"actions\": [\x7b\"pump_number\": 5, \"chemical_name\": \"Mystery\", \"dose_ml\": 3, \"reasoning\": \"r\"\x7d]\x7d"

/-- C1 counterexample: on the two-slot device `dev1`, an advisor
response whose single action references pump 5 with an unconfigured
chemical name passes `validate_llm_response` (no
`MalformedPlan{domain_mismatch}` failure) and the run publishes it
(dispatch count 1, not 0). -/
theorem C1_counterexample :
    json_loads replyC1 = .ok respC1 ∧
    validate_llm_response respC1 = .ok () ∧
    ((process_dosing_request mgrAB "t0" (.reply replyC1) "dev1" sensorFix plantFix).2).length = 1 :=
  ⟨rfl, rfl, rfl⟩

/-- C1 (amended): the validator performs no domain cross-check at
all — it never consults the device's pump configuration. Any response
whose actions merely have the four required keys and a non-negative
numeric dose passes validation, whatever pump numbers and chemical
names they carry, and the plan is dispatched (one publish to the
device's topic). -/
theorem C1_no_domain_crosscheck (mgr : DosingManager) (now deviceId : String)
    (dev : DosingDevice) (kvs : List (String × JVal)) (acts : List JVal)
    (hdev : get_device mgr deviceId = .ok dev)
    (hact : jlookup kvs "actions" = some (.jarr acts))
    (hsh : acts.all actionWellShapedB = true) :
    validate_llm_response (.jobj kvs) = .ok () ∧
    ∃ msg, execute_dosing_plan mgr now deviceId (.jobj kvs)
      = .ok (msg, [(dev.mqtt_topic, msg)]) :=
  ⟨validate_ok_of_shape kvs acts hact hsh,
   ⟨_, execute_dosing_plan_ok mgr now deviceId dev kvs (.jarr acts) hdev hact⟩⟩

/-- Witness for C1 (amended) at the concrete mismatching action. -/
theorem C1_no_domain_crosscheck_witness :
    get_device mgrAB "dev1" = .ok ⟨"dev1", pumpsAB⟩ ∧
    jlookup [("actions", .jarr [actC1])] "actions" = some (.jarr [actC1]) ∧
    ([actC1].all actionWellShapedB = true) ∧
    (validate_llm_response respC1 = .ok () ∧
     ∃ msg, execute_dosing_plan mgrAB "t0" "dev1" respC1
       = .ok (msg, [(DosingDevice.mqtt_topic ⟨"dev1", pumpsAB⟩, msg)])) :=
  ⟨rfl, rfl, rfl,
   C1_no_domain_crosscheck mgrAB "t0" "dev1" ⟨"dev1", pumpsAB⟩
     [("actions", .jarr [actC1])] [actC1] rfl rfl rfl⟩

/-! ### C3 — next_check_hours validation -/

/-- A parsed response with an empty action list and
`next_check_hours = 0` (not a positive integer). -/
def respC3 : JVal := .jobj [("actions", .jarr []), ("next_check_hours", .jint 0)]

/-- Raw advisor reply whose JSON parse is `respC3`. -/
def replyC3 : String := "\x7b\"actions\": [], \"next_check_hours\": 0\x7d"

/-- The dispatch message the pipeline publishes for `respC3`. -/
def msgC3 : JVal := .jobj [("timestamp", .jstr "t0"), ("device_id", .jstr "dev1"),
  ("actions", .jarr []), ("next_check_hours", .jint 0)]

/-- C3 counterexample: a response with `next_check_hours = 0` (not a
positive integer) passes validation and IS dispatched — the message
published carries `next_check_hours = 0`. -/
theorem C3_counterexample :
    json_loads replyC3 = .ok respC3 ∧
    validate_llm_response respC3 = .ok () ∧
    process_dosing_request mgrAB "t0" (.reply replyC3) "dev1" sensorFix plantFix
      = (.ok msgC3, [("krishiverse/devices/dev1/dosing", msgC3)]) :=
  ⟨rfl, rfl, rfl⟩

/-- C3 (amended): `next_check_hours` is never validated. Whatever
value the field holds (zero, negative, non-integer — any `JVal`),
validation of a shape-valid response succeeds and the value is copied
unchanged into the dispatched message. -/
theorem C3_interval_not_validated (mgr : DosingManager) (now deviceId : String)
    (dev : DosingDevice) (kvs : List (String × JVal)) (acts : List JVal) (v : JVal)
    (hdev : get_device mgr deviceId = .ok dev)
    (hact : jlookup kvs "actions" = some (.jarr acts))
    (hsh : acts.all actionWellShapedB = true)
    (hnch : jlookup kvs "next_check_hours" = some v) :
    validate_llm_response (.jobj kvs) = .ok () ∧
    execute_dosing_plan mgr now deviceId (.jobj kvs)
      = .ok (.jobj [("timestamp", .jstr now), ("device_id", .jstr deviceId),
            ("actions", .jarr acts), ("next_check_hours", v)],
          [(dev.mqtt_topic,
            .jobj [("timestamp", .jstr now), ("device_id", .jstr deviceId),
              ("actions", .jarr acts), ("next_check_hours", v)])]) := by
  refine ⟨validate_ok_of_shape kvs acts hact hsh, ?_⟩
  have h := execute_dosing_plan_ok mgr now deviceId dev kvs (.jarr acts) hdev hact
  rw [hnch] at h
  simpa using h

/-- Witness for C3 (amended) at `next_check_hours = 0`. -/
theorem C3_interval_not_validated_witness :
    get_device mgrAB "dev1" = .ok ⟨"dev1", pumpsAB⟩ ∧
    jlookup [("actions", .jarr []), ("next_check_hours", .jint 0)] "actions" = some (.jarr []) ∧
    (([] : List JVal).all actionWellShapedB = true) ∧
    jlookup [("actions", .jarr []), ("next_check_hours", .jint 0)] "next_check_hours" = some (.jint 0) ∧
    (validate_llm_response respC3 = .ok () ∧
     execute_dosing_plan mgrAB "t0" "dev1" respC3
       = .ok (.jobj [("timestamp", .jstr "t0"), ("device_id", .jstr "dev1"),
             ("actions", .jarr []), ("next_check_hours", .jint 0)],
           [(DosingDevice.mqtt_topic ⟨"dev1", pumpsAB⟩,
             .jobj [("timestamp", .jstr "t0"), ("device_id", .jstr "dev1"),
               ("actions", .jarr []), ("next_check_hours", .jint 0)])])) :=
  ⟨rfl, rfl, rfl, rfl,
   C3_interval_not_validated mgrAB "t0" "dev1" ⟨"dev1", pumpsAB⟩
     [("actions", .jarr []), ("next_check_hours", .jint 0)] [] (.jint 0) rfl rfl rfl rfl⟩

/-! ### C5 — dose type/range check -/

/-- C5: for a single-action response whose action has all four
required keys, validation succeeds exactly when `dose_ml` is numeric
and non-negative (so a dose of exactly 0 is accepted); a non-numeric
or strictly negative dose makes validation fail with the bad-dose
`ValueError`. -/
theorem C5_dose_range_check (kvs : List (String × JVal)) (dose : JVal)
    (hp : (jlookup kvs "pump_number").isSome = true)
    (hc : (jlookup kvs "chemical_name").isSome = true)
    (hr : (jlookup kvs "reasoning").isSome = true)
    (hd : jlookup kvs "dose_ml" = some dose) :
    (validate_llm_response (.jobj [("actions", .jarr [.jobj kvs])]) = .ok ()
      ↔ (isNumericJ dose = true ∧ 0 ≤ numValJ dose)) ∧
    ((isNumericJ dose = false ∨ numValJ dose < 0) →
      validate_llm_response (.jobj [("actions", .jarr [.jobj kvs])])
        = .error "dose_ml must be a positive number") := by
  cases hnum : isNumericJ dose with
  | false =>
    have hval : validate_llm_response (.jobj [("actions", .jarr [.jobj kvs])])
        = .error "dose_ml must be a positive number" := by
      simp [validate_llm_response, jlookup, validateActions, validateAction,
        pyAllContains, pyContains, requiredKeys, pySubscript,
        Bind.bind, Except.bind, pure, Except.pure, hp, hc, hr, hd, hnum]
    exact ⟨⟨fun hcon => absurd (hval ▸ hcon) (by simp),
      fun hcon => absurd hcon.1 (by simp)⟩, fun _ => hval⟩
  | true =>
    by_cases hge : numValJ dose < 0
    · have hval : validate_llm_response (.jobj [("actions", .jarr [.jobj kvs])])
          = .error "dose_ml must be a positive number" := by
        simp [validate_llm_response, jlookup, validateActions, validateAction,
          pyAllContains, pyContains, requiredKeys, pySubscript,
          Bind.bind, Except.bind, pure, Except.pure, hp, hc, hr, hd, hnum, hge]
      refine ⟨⟨fun hcon => absurd (hval ▸ hcon) (by simp), fun hcon => ?_⟩, fun _ => hval⟩
      exact absurd hcon.2 (not_le.mpr hge)
    · have hval : validate_llm_response (.jobj [("actions", .jarr [.jobj kvs])])
          = .ok () := by
        simp [validate_llm_response, jlookup, validateActions, validateAction,
          pyAllContains, pyContains, requiredKeys, pySubscript,
          Bind.bind, Except.bind, pure, Except.pure, hp, hc, hr, hd, hnum, hge]
      refine ⟨⟨fun _ => ⟨rfl, not_lt.mp hge⟩, fun _ => hval⟩, fun hcon => ?_⟩
      rcases hcon with h | h
      · exact absurd h (by simp)
      · exact absurd h hge

/-- The action used to witness C5: all keys present, dose exactly 0. -/
def actKvsC5 : List (String × JVal) :=
  [("pump_number", .jint 1), ("chemical_name", .jstr "Nutrient A"),
   ("dose_ml", .jint 0), ("reasoning", .jstr "maintain")]

/-- Witness for C5: a dose of exactly 0 passes validation. -/
theorem C5_dose_range_check_witness :
    (jlookup actKvsC5 "pump_number").isSome = true ∧
    (jlookup actKvsC5 "chemical_name").isSome = true ∧
    (jlookup actKvsC5 "reasoning").isSome = true ∧
    jlookup actKvsC5 "dose_ml" = some (.jint 0) ∧
    validate_llm_response (.jobj [("actions", .jarr [.jobj actKvsC5])]) = .ok () :=
  ⟨rfl, rfl, rfl, rfl,
   (C5_dose_range_check actKvsC5 (.jint 0) rfl rfl rfl rfl).1.mpr
     ⟨rfl, by simp [numValJ]⟩⟩

/-! ### C6 — dispatch message shape and action round-trip -/

/-- C6: the dispatch message built from a validated plan has exactly
the four fields `timestamp, device_id, actions, next_check_hours` (in
that order), its `actions` entry is the plan's `actions` value itself
(identical order, count and per-action fields), and reading `actions`
back out of the message returns it unchanged (lossless round-trip). -/
theorem C6_dispatch_roundtrip (mgr : DosingManager) (now deviceId : String)
    (dev : DosingDevice) (kvs : List (String × JVal)) (acts : JVal)
    (_hval : validate_llm_response (.jobj kvs) = .ok ())
    (hdev : get_device mgr deviceId = .ok dev)
    (hact : jlookup kvs "actions" = some acts) :
    execute_dosing_plan mgr now deviceId (.jobj kvs)
      = .ok (.jobj [("timestamp", .jstr now), ("device_id", .jstr deviceId),
            ("actions", acts),
            ("next_check_hours", (jlookup kvs "next_check_hours").getD (.jint 24))],
          [(dev.mqtt_topic,
            .jobj [("timestamp", .jstr now), ("device_id", .jstr deviceId),
              ("actions", acts),
              ("next_check_hours", (jlookup kvs "next_check_hours").getD (.jint 24))])]) ∧
    pySubscript (.jobj [("timestamp", .jstr now), ("device_id", .jstr deviceId),
        ("actions", acts),
        ("next_check_hours", (jlookup kvs "next_check_hours").getD (.jint 24))]) "actions"
      = .ok acts := by
  refine ⟨execute_dosing_plan_ok mgr now deviceId dev kvs acts hdev hact, ?_⟩
  simp [pySubscript, jlookup]

/-- Witness for C6 on a concrete validated single-action plan. -/
theorem C6_dispatch_roundtrip_witness :
    validate_llm_response respC1 = .ok () ∧
    get_device mgrAB "dev1" = .ok ⟨"dev1", pumpsAB⟩ ∧
    jlookup [("actions", .jarr [actC1])] "actions" = some (.jarr [actC1]) ∧
    (execute_dosing_plan mgrAB "t0" "dev1" respC1
      = .ok (.jobj [("timestamp", .jstr "t0"), ("device_id", .jstr "dev1"),
            ("actions", .jarr [actC1]),
            ("next_check_hours",
              (jlookup [("actions", .jarr [actC1])] "next_check_hours").getD (.jint 24))],
          [(DosingDevice.mqtt_topic ⟨"dev1", pumpsAB⟩,
            .jobj [("timestamp", .jstr "t0"), ("device_id", .jstr "dev1"),
              ("actions", .jarr [actC1]),
              ("next_check_hours",
                (jlookup [("actions", .jarr [actC1])] "next_check_hours").getD (.jint 24))])]) ∧
     pySubscript (.jobj [("timestamp", .jstr "t0"), ("device_id", .jstr "dev1"),
         ("actions", .jarr [actC1]),
         ("next_check_hours",
           (jlookup [("actions", .jarr [actC1])] "next_check_hours").getD (.jint 24))]) "actions"
       = .ok (.jarr [actC1])) :=
  ⟨rfl, rfl, rfl,
   C6_dispatch_roundtrip mgrAB "t0" "dev1" ⟨"dev1", pumpsAB⟩
     [("actions", .jarr [actC1])] (.jarr [actC1]) rfl rfl rfl⟩

/-! ### C7 — default re-check interval -/

/-- C7: when the validated plan has no `next_check_hours` entry, the
dispatched message carries `next_check_hours = 24`. -/
theorem C7_default_interval (mgr : DosingManager) (now deviceId : String)
    (dev : DosingDevice) (kvs : List (String × JVal)) (acts : JVal)
    (_hval : validate_llm_response (.jobj kvs) = .ok ())
    (hdev : get_device mgr deviceId = .ok dev)
    (hact : jlookup kvs "actions" = some acts)
    (hnone : jlookup kvs "next_check_hours" = none) :
    execute_dosing_plan mgr now deviceId (.jobj kvs)
      = .ok (.jobj [("timestamp", .jstr now), ("device_id", .jstr deviceId),
            ("actions", acts), ("next_check_hours", .jint 24)],
          [(dev.mqtt_topic,
            .jobj [("timestamp", .jstr now), ("device_id", .jstr deviceId),
              ("actions", acts), ("next_check_hours", .jint 24)])]) := by
  have h := execute_dosing_plan_ok mgr now deviceId dev kvs acts hdev hact
  rw [hnone] at h
  simpa using h

/-- Witness for C7: an empty-actions plan with no `next_check_hours`
field dispatches with the default interval 24. -/
theorem C7_default_interval_witness :
    validate_llm_response (.jobj [("actions", .jarr [])]) = .ok () ∧
    get_device mgrAB "dev1" = .ok ⟨"dev1", pumpsAB⟩ ∧
    jlookup [("actions", .jarr [])] "actions" = some (.jarr []) ∧
    jlookup [("actions", .jarr [])] "next_check_hours" = none ∧
    execute_dosing_plan mgrAB "t0" "dev1" (.jobj [("actions", .jarr [])])
      = .ok (.jobj [("timestamp", .jstr "t0"), ("device_id", .jstr "dev1"),
            ("actions", .jarr []), ("next_check_hours", .jint 24)],
          [(DosingDevice.mqtt_topic ⟨"dev1", pumpsAB⟩,
            .jobj [("timestamp", .jstr "t0"), ("device_id", .jstr "dev1"),
              ("actions", .jarr []), ("next_check_hours", .jint 24)])]) :=
  ⟨rfl, rfl, rfl, rfl,
   C7_default_interval mgrAB "t0" "dev1" ⟨"dev1", pumpsAB⟩
     [("actions", .jarr [])] (.jarr []) rfl rfl rfl rfl⟩

/-! ### C4 — fail-closed orchestration -/

/-- C4: whenever the advisor stage fails — advisor unreachable, empty
response, JSON parse failure, or any validation failure, i.e.
`call_llm_async` returns an error — the orchestrator performs zero
publish calls in that run. -/
theorem C4_fail_closed (mgr : DosingManager) (now : String) (outcome : LLMOutcome)
    (deviceId : String) (sensor_data plant_profile : List (String × JVal)) (e : String)
    (h : call_llm_async outcome = .error e) :
    (process_dosing_request mgr now outcome deviceId sensor_data plant_profile).2 = [] := by
  unfold process_dosing_request
  cases hb : build_dosing_prompt mgr deviceId sensor_data plant_profile with
  | error m => simp
  | ok p => simp [h]

/-- Witness for C4: an unreachable advisor yields an errored run with
an empty publish list. -/
theorem C4_fail_closed_witness :
    call_llm_async (.unreachable "connection refused") = .error "connection refused" ∧
    (process_dosing_request mgrAB "t0" (.unreachable "connection refused")
      "dev1" sensorFix plantFix).2 = [] :=
  ⟨rfl, C4_fail_closed mgrAB "t0" (.unreachable "connection refused")
    "dev1" sensorFix plantFix "connection refused" rfl⟩

/-! ### C8 — prompt builder determinism and purity -/

/-- C8: `build_dosing_prompt` is a pure function of the registered
device configuration, the sensor snapshot and the plant profile: two
registries whose lookup of the target device agree produce identical
prompt text on identical snapshot/profile inputs (and the builder,
being a plain function, mutates no registry state). -/
theorem C8_prompt_deterministic (mgr1 mgr2 : DosingManager) (deviceId : String)
    (sensor_data plant_profile : List (String × JVal))
    (h : get_device mgr1 deviceId = get_device mgr2 deviceId) :
    build_dosing_prompt mgr1 deviceId sensor_data plant_profile
      = build_dosing_prompt mgr2 deviceId sensor_data plant_profile := by
  unfold build_dosing_prompt
  rw [h]

/-- Witness for C8: two different registries agreeing on `dev1`
produce byte-identical prompts. -/
theorem C8_prompt_deterministic_witness :
    get_device mgrAB "dev1" = get_device (register_device mgrAB "dev2" []) "dev1" ∧
    build_dosing_prompt mgrAB "dev1" sensorFix plantFix
      = build_dosing_prompt (register_device mgrAB "dev2" []) "dev1" sensorFix plantFix :=
  ⟨rfl, C8_prompt_deterministic mgrAB (register_device mgrAB "dev2" []) "dev1"
    sensorFix plantFix rfl⟩

/-! ### C9 — missing sensor readings render as "Unknown" -/

/-- C9: with a registered device and a well-formed plant profile, the
prompt builder never fails on a sensor snapshot, and a missing `ph`
(resp. `tds`) reading produces exactly the prompt obtained by
supplying the explicit placeholder string "Unknown" for it. -/
theorem C9_missing_sensor_unknown (mgr : DosingManager) (deviceId : String)
    (sensor_data plant_profile : List (String × JVal)) (dev : DosingDevice)
    (pn ca sa : JVal)
    (hdev : get_device mgr deviceId = .ok dev)
    (hpn : jlookup plant_profile "plant_name" = some pn)
    (hca : jlookup plant_profile "current_age" = some ca)
    (hsa : jlookup plant_profile "seeding_age" = some sa) :
    (∃ out, build_dosing_prompt mgr deviceId sensor_data plant_profile = .ok out) ∧
    (jlookup sensor_data "ph" = none →
      build_dosing_prompt mgr deviceId sensor_data plant_profile
        = build_dosing_prompt mgr deviceId (("ph", .jstr "Unknown") :: sensor_data) plant_profile) ∧
    (jlookup sensor_data "tds" = none →
      build_dosing_prompt mgr deviceId sensor_data plant_profile
        = build_dosing_prompt mgr deviceId (("tds", .jstr "Unknown") :: sensor_data) plant_profile) := by
  have h1 : jlookup (("ph", (.jstr "Unknown" : JVal)) :: sensor_data) "ph"
      = some (.jstr "Unknown") := rfl
  have h2 : jlookup (("ph", (.jstr "Unknown" : JVal)) :: sensor_data) "tds"
      = jlookup sensor_data "tds" := rfl
  have h3 : jlookup (("tds", (.jstr "Unknown" : JVal)) :: sensor_data) "tds"
      = some (.jstr "Unknown") := rfl
  have h4 : jlookup (("tds", (.jstr "Unknown" : JVal)) :: sensor_data) "ph"
      = jlookup sensor_data "ph" := rfl
  refine ⟨?_, ?_, ?_⟩
  · simp [build_dosing_prompt, hdev, dictIndex, hpn, hca, hsa,
      Bind.bind, Except.bind, pure, Except.pure]
  · intro hph
    simp [build_dosing_prompt, h1, h2, hph]
  · intro htds
    simp [build_dosing_prompt, h3, h4, htds]

/-- Witness for C9 at an empty sensor snapshot: the prompt builds and
both readings equal the explicit-"Unknown" renderings. -/
theorem C9_missing_sensor_unknown_witness :
    get_device mgrAB "dev1" = .ok ⟨"dev1", pumpsAB⟩ ∧
    jlookup plantFix "plant_name" = some (.jstr "Lettuce") ∧
    jlookup plantFix "current_age" = some (.jint 20) ∧
    jlookup plantFix "seeding_age" = some (.jint 5) ∧
    ((∃ out, build_dosing_prompt mgrAB "dev1" [] plantFix = .ok out) ∧
     (jlookup ([] : List (String × JVal)) "ph" = none →
       build_dosing_prompt mgrAB "dev1" [] plantFix
         = build_dosing_prompt mgrAB "dev1" [("ph", .jstr "Unknown")] plantFix) ∧
     (jlookup ([] : List (String × JVal)) "tds" = none →
       build_dosing_prompt mgrAB "dev1" [] plantFix
         = build_dosing_prompt mgrAB "dev1" [("tds", .jstr "Unknown")] plantFix)) :=
  ⟨rfl, rfl, rfl, rfl,
   C9_missing_sensor_unknown mgrAB "dev1" [] plantFix ⟨"dev1", pumpsAB⟩
     (.jstr "Lettuce") (.jint 20) (.jint 5) rfl rfl rfl rfl⟩

/-! ### C10 — empty action list is accepted and dispatched -/

/-- C10: a response whose `actions` value is the empty list passes
validation (no per-action check fires) and the pipeline dispatches a
message containing zero actions to the device's topic. -/
theorem C10_empty_plan_dispatched (mgr : DosingManager) (now deviceId prompt : String)
    (outcome : LLMOutcome) (sensor_data plant_profile : List (String × JVal))
    (dev : DosingDevice) (kvs : List (String × JVal))
    (hb : build_dosing_prompt mgr deviceId sensor_data plant_profile = .ok prompt)
    (hllm : call_llm_async outcome = .ok (.jobj kvs))
    (hdev : get_device mgr deviceId = .ok dev)
    (hact : jlookup kvs "actions" = some (.jarr [])) :
    validate_llm_response (.jobj kvs) = .ok () ∧
    process_dosing_request mgr now outcome deviceId sensor_data plant_profile
      = (.ok (.jobj [("timestamp", .jstr now), ("device_id", .jstr deviceId),
            ("actions", .jarr []),
            ("next_check_hours", (jlookup kvs "next_check_hours").getD (.jint 24))]),
         [(dev.mqtt_topic,
           .jobj [("timestamp", .jstr now), ("device_id", .jstr deviceId),
             ("actions", .jarr []),
             ("next_check_hours", (jlookup kvs "next_check_hours").getD (.jint 24))])]) := by
  refine ⟨validate_ok_of_shape kvs [] hact rfl, ?_⟩
  simp only [process_dosing_request, hb, hllm,
    execute_dosing_plan_ok mgr now deviceId dev kvs (.jarr []) hdev hact]

/-- Raw advisor reply with an empty actions list. -/
def replyC10 : String := "\x7b\"actions\": []\x7d"

/-- The prompt `build_dosing_prompt` produces on the fixtures. -/
def promptFix : String :=
  (build_dosing_prompt mgrAB "dev1" sensorFix plantFix).toOption.getD ""

/-- Witness for C10: an advisor reply of `{"actions": []}` flows
through the whole pipeline and a zero-action message is published. -/
theorem C10_empty_plan_dispatched_witness :
    build_dosing_prompt mgrAB "dev1" sensorFix plantFix = .ok promptFix ∧
    call_llm_async (.reply replyC10) = .ok (.jobj [("actions", .jarr [])]) ∧
    get_device mgrAB "dev1" = .ok ⟨"dev1", pumpsAB⟩ ∧
    jlookup [("actions", .jarr [])] "actions" = some (.jarr []) ∧
    (validate_llm_response (.jobj [("actions", .jarr [])]) = .ok () ∧
     process_dosing_request mgrAB "t0" (.reply replyC10) "dev1" sensorFix plantFix
       = (.ok (.jobj [("timestamp", .jstr "t0"), ("device_id", .jstr "dev1"),
             ("actions", .jarr []),
             ("next_check_hours",
               (jlookup [("actions", .jarr [])] "next_check_hours").getD (.jint 24))]),
          [(DosingDevice.mqtt_topic ⟨"dev1", pumpsAB⟩,
            .jobj [("timestamp", .jstr "t0"), ("device_id", .jstr "dev1"),
              ("actions", .jarr []),
              ("next_check_hours",
                (jlookup [("actions", .jarr [])] "next_check_hours").getD (.jint 24))])])) :=
  ⟨rfl, rfl, rfl, rfl,
   C10_empty_plan_dispatched mgrAB "t0" "dev1" promptFix (.reply replyC10)
     sensorFix plantFix ⟨"dev1", pumpsAB⟩ [("actions", .jarr [])] rfl rfl rfl rfl⟩

/-! ### C2 — empty-response detection vs think-block stripping -/

theorem pyContains_error (a : JVal) (k m : String)
    (h : pyContains a k = .error m) : m = "TypeError: argument is not iterable" := by
  cases a <;> simp_all [pyContains]

theorem pyAllContains_error (a : JVal) (ks : List String) (e : String)
    (h : pyAllContains a ks = .error e) : e = "TypeError: argument is not iterable" := by
  induction ks with
  | nil => simp [pyAllContains] at h
  | cons k rest ih =>
    rw [pyAllContains] at h
    cases hc : pyContains a k with
    | error m =>
      rw [hc] at h
      simp only [Bind.bind, Except.bind] at h
      cases h
      exact pyContains_error a k e hc
    | ok b =>
      rw [hc] at h
      simp only [Bind.bind, Except.bind] at h
      cases b with
      | true => exact ih h
      | false => simp [pure, Except.pure] at h

theorem pySubscript_error (v : JVal) (k e : String) (h : pySubscript v k = .error e) :
    e = "KeyError: " ++ k ∨ e = "TypeError: value is not subscriptable" := by
  cases v with
  | jobj kvs =>
    cases hl : jlookup kvs k with
    | some x => simp [pySubscript, hl] at h
    | none => simp [pySubscript, hl] at h; exact Or.inl h.symm
  | jnull => simp [pySubscript] at h; exact Or.inr h.symm
  | jbool b => simp [pySubscript] at h; exact Or.inr h.symm
  | jint n => simp [pySubscript] at h; exact Or.inr h.symm
  | jfloat q => simp [pySubscript] at h; exact Or.inr h.symm
  | jstr s => simp [pySubscript] at h; exact Or.inr h.symm
  | jarr xs => simp [pySubscript] at h; exact Or.inr h.symm

theorem validateAction_error_ne_empty (a : JVal) (e : String)
    (h : validateAction a = .error e) : e ≠ "Empty response from LLM" := by
  intro hEq
  subst hEq
  rw [validateAction] at h
  cases hall : pyAllContains a requiredKeys with
  | error m =>
    rw [hall] at h
    simp only [Bind.bind, Except.bind] at h
    cases h
    have := pyAllContains_error a requiredKeys _ hall
    exact absurd this (by decide)
  | ok b =>
    rw [hall] at h
    simp only [Bind.bind, Except.bind] at h
    cases b with
    | false =>
      simp only [Bool.not_false, if_true] at h
      injection h with h
      exact absurd h (by decide)
    | true =>
      simp only [Bool.not_true, Bool.false_eq_true, if_false] at h
      cases hsub : pySubscript a "dose_ml" with
      | error m =>
        rw [hsub] at h
        simp only [Bind.bind, Except.bind] at h
        cases h
        rcases pySubscript_error a "dose_ml" _ hsub with h2 | h2 <;> exact absurd h2 (by decide)
      | ok dose =>
        rw [hsub] at h
        simp only [Bind.bind, Except.bind] at h
        cases hnum : isNumericJ dose with
        | false =>
          simp only [hnum, Bool.not_false, if_true] at h
          injection h with h
          exact absurd h (by decide)
        | true =>
          simp only [hnum, Bool.not_true, Bool.false_eq_true, if_false] at h
          by_cases hlt : numValJ dose < 0
          · rw [if_pos hlt] at h
            injection h with h
            exact absurd h (by decide)
          · rw [if_neg hlt] at h
            simp [pure, Except.pure] at h

theorem validateActions_error_ne_empty (l : List JVal) (e : String)
    (h : validateActions l = .error e) : e ≠ "Empty response from LLM" := by
  induction l with
  | nil => simp [validateActions] at h
  | cons a rest ih =>
    rw [validateActions] at h
    cases hva : validateAction a with
    | error m =>
      rw [hva] at h
      simp only [Bind.bind, Except.bind] at h
      cases h
      exact validateAction_error_ne_empty a e hva
    | ok u =>
      cases u
      rw [hva] at h
      simp only [Bind.bind, Except.bind] at h
      exact ih h

/-- No error raised by `validate_llm_response` carries the message of
the empty-response `ValueError` raised earlier in `call_llm_async`. -/
theorem validate_error_ne_empty (r : JVal) (e : String)
    (h : validate_llm_response r = .error e) : e ≠ "Empty response from LLM" := by
  cases r with
  | jobj kvs =>
    rw [validate_llm_response] at h
    cases hl : jlookup kvs "actions" with
    | none =>
      simp only [hl, Option.isSome_none, Bool.false_eq_true, if_false] at h
      injection h with h
      rw [← h]; decide
    | some v =>
      simp only [hl, Option.isSome_some, if_true] at h
      cases v with
      | jarr acts => exact validateActions_error_ne_empty acts e h
      | jnull => injection h with h; rw [← h]; decide
      | jbool b => injection h with h; rw [← h]; decide
      | jint n => injection h with h; rw [← h]; decide
      | jfloat q => injection h with h; rw [← h]; decide
      | jstr s => injection h with h; rw [← h]; decide
      | jobj o => injection h with h; rw [← h]; decide
  | jnull => injection h with h; rw [← h]; decide
  | jbool b => injection h with h; rw [← h]; decide
  | jint n => injection h with h; rw [← h]; decide
  | jfloat q => injection h with h; rw [← h]; decide
  | jstr s => injection h with h; rw [← h]; decide
  | jarr xs => injection h with h; rw [← h]; decide

/-- An advisor output consisting only of a reasoning-trace block. -/
def replyC2 : String := "<think>internal reasoning only</think>"

/-- C2 counterexample: `replyC2` strips to a blank string, yet the
client reports it as an invalid-JSON parse failure — not as the
empty-response error — because the blank check runs on the raw
output, before the think-block stripping. -/
theorem C2_counterexample :
    pyStrip (strip_think (pyStrip replyC2)) = "" ∧
    call_llm_async (.reply replyC2)
      = .error "Invalid JSON response from LLM: Expecting value" ∧
    call_llm_async (.reply replyC2) ≠ .error "Empty response from LLM" := by
  refine ⟨rfl, rfl, ?_⟩
  intro hc
  rw [show call_llm_async (.reply replyC2)
    = .error "Invalid JSON response from LLM: Expecting value" from rfl] at hc
  injection hc with hc
  exact absurd hc (by decide)

/-- C2 (amended): the client tests for blank output BEFORE stripping
reasoning-trace delimiters: `call_llm_async` fails with the
empty-response error exactly when the raw advisor output is blank
after whitespace trimming. An output that becomes blank only after
think-block stripping is instead rejected later, as a JSON parse
failure (see the counterexample). -/
theorem C2_empty_check_before_stripping (raw : String) :
    call_llm_async (.reply raw) = .error "Empty response from LLM" ↔ pyStrip raw = "" := by
  by_cases h : pyStrip raw = ""
  · simp [call_llm_async, h]
  · have hb : (pyStrip raw == "") = false := beq_eq_false_iff_ne.mpr h
    simp only [call_llm_async, hb, Bool.false_eq_true, if_false]
    constructor
    · intro hc
      exfalso
      cases hj : json_loads (pyStrip (strip_think (pyStrip raw))) with
      | error m =>
        simp only [hj] at hc
        injection hc with hc
        have h1 := congrArg String.length hc
        rw [String.length_append] at h1
        rw [show ("Invalid JSON response from LLM: " : String).length = 32 from rfl] at h1
        rw [show ("Empty response from LLM" : String).length = 23 from rfl] at h1
        omega
      | ok parsed =>
        simp only [hj] at hc
        cases hv : validate_llm_response parsed with
        | error m =>
          simp only [hv] at hc
          injection hc with hc
          exact validate_error_ne_empty parsed m hv hc
        | ok u =>
          cases u
          simp only [hv] at hc
          exact Except.noConfusion hc
    · intro hc
      exact absurd hc h
